import Mathlib

/-!
# Verification of the ecommerce-api checkout / stock / payment-webhook core

Shallow embedding of the stock-reservation, checkout and payment-event
subsystem of the `ecommerce-api` repository (JavaScript / Mongoose), and
proofs about it.

Source files embedded here:
* `src/utils/stockManager.js` (workspace file `src/unnamed/part_015`):
  `reserveStock`, `releaseStock`, `updateSoldCount`.
* `src/controllers/paymentController.js`, current (transactional) version
  (`src/src/constants/index.js`, second document, lines 409-826):
  `validateCartPrices`, `checkout`, `handlePaymentSuccess`,
  `handlePaymentFailed`, `handlePaymentCanceled`, `handleRefund`.
* `src/controllers/paymentController.js`, legacy (non-transactional) version
  (`src/src/constants/index.js`, third document, lines 826-1235): the legacy
  `handlePaymentSuccess` that decrements `inStock` directly; embedded as
  `handlePaymentSuccessLegacy`.
* `src/controllers/orderController.js`: `cancelOrder`.
* `src/models/Product.js`: the product fields the core reads/writes, and the
  `pre(/^find/)` middleware that hides soft-deleted products from every
  find-family query (including `findByIdAndUpdate` / `findOneAndUpdate`).
* `src/models/Order.js`: the order fields the core reads/writes.
* `src/constants/index.js` (first document): `NON_CANCELLABLE_ORDER_STATUSES`.

Conventions of the embedding:
* Mongo documents are Lean structures; the product collection is a partial
  map `Store := Nat → Option Product` keyed by `_id`; the order collection is
  a `List Order` searched in insertion order (`Order.findOne` returns the
  first match).
* JS numbers holding stock counters are embedded as `Int`: Mongo `$inc`
  does not enforce the schema `min: 0` bound, so counters can go negative.
* Prices and quantities are `Nat` (the code never makes them negative).
* A Mongoose session/transaction makes a handler's writes atomic; each
  handler is a single Lean function from state to state, so this atomicity
  is implicit in the embedding.
* External collaborators (Stripe, shipping/tax calculators, e-mail) are
  abstracted: the payment-intent id is an input, the shipping and tax
  calculators are function parameters, e-mail sending has no modelled state.
-/

/-- The fields of `src/models/Product.js` read or written by the core.
`inStock` and `soldCount` are `Int` because `$inc` updates bypass the schema
`min: 0` validator. `salePrice = none` embeds a missing/null `salePrice`. -/
structure Product where
  title : String
  sku : String
  regularPrice : Nat
  salePrice : Option Nat
  inStock : Int
  soldCount : Int
  isPublished : Bool
  isDeleted : Bool
deriving Repr, DecidableEq

/-- The product collection, keyed by `_id`. -/
def Store : Type := Nat → Option Product

/-- Write one document of the product collection. -/
def setProduct (st : Store) (pid : Nat) (p : Product) : Store :=
  fun j => if j = pid then some p else st j

/-- `ProductModel.findById` / any `find`-family query: the `pre(/^find/)`
middleware in `src/models/Product.js` (lines 258-263) adds
`where({ isDeleted: false })`, so soft-deleted documents are invisible. -/
def findById (st : Store) (pid : Nat) : Option Product :=
  match st pid with
  | some p => if p.isDeleted then none else some p
  | none => none

/-- The authoritative unit price, `product.salePrice || product.regularPrice`
(`validateCartPrices`): JS `||` falls through on `0` as well as on
missing/null. -/
def currentPrice (p : Product) : Nat :=
  match p.salePrice with
  | some s => if s = 0 then p.regularPrice else s
  | none => p.regularPrice

/-- Projection used to state stock facts. -/
def stockOf (st : Store) (pid : Nat) : Option Int :=
  (st pid).map Product.inStock

/-- Projection used to state sold-count facts. -/
def soldOf (st : Store) (pid : Nat) : Option Int :=
  (st pid).map Product.soldCount

/-- `ProductModel.findByIdAndUpdate(pid, { $inc: { inStock: dS, soldCount: dC } })`.
As a find-family query it skips soft-deleted documents (and is a no-op on a
missing id); otherwise it adds the increments atomically. -/
def incProduct (st : Store) (pid : Nat) (dS dC : Int) : Store :=
  match findById st pid with
  | some p =>
      setProduct st pid { p with inStock := p.inStock + dS, soldCount := p.soldCount + dC }
  | none => st

/-- A `(productId, quantity)` pair as passed to the stock-manager helpers. -/
abbrev ItemQty := Nat × Nat

/-- A loop of `findByIdAndUpdate` `$inc` writes, one per item, with per-item
increments `dS`/`dC` computed from the quantity.  This is the common shape of
`releaseStock`, `updateSoldCount`, the refund restock loop and the legacy
success-handler stock loop. -/
def incLoop (dS dC : Nat → Int) (st : Store) : List ItemQty → Store
  | [] => st
  | (pid, q) :: rest => incLoop dS dC (incProduct st pid (dS q) (dC q)) rest

/-- `releaseStock(items)` from `src/utils/stockManager.js` lines 58-70:
unconditionally `$inc: { inStock: item.quantity }` for each item. -/
def releaseStock (st : Store) (items : List ItemQty) : Store :=
  incLoop (fun q => (q : Int)) (fun _ => 0) st items

/-- `updateSoldCount(items)` from `src/utils/stockManager.js` lines 78-88:
unconditionally `$inc: { soldCount: item.quantity }` for each item. -/
def updateSoldCount (st : Store) (items : List ItemQty) : Store :=
  incLoop (fun _ => 0) (fun q => (q : Int)) st items

/-- The restock loop of `handleRefund` (paymentController, both versions) and
of `cancelOrder` (orderController lines 113-123):
`$inc: { inStock: item.quantity, soldCount: -item.quantity }`. -/
def restoreStock (st : Store) (items : List ItemQty) : Store :=
  incLoop (fun q => (q : Int)) (fun q => -(q : Int)) st items

/-- The stock loop of the legacy `handlePaymentSuccess`
(`src/src/constants/index.js` lines 1107-1117):
`$inc: { inStock: -item.quantity, soldCount: item.quantity }` — an
unguarded decrement. -/
def decStockOnSale (st : Store) (items : List ItemQty) : Store :=
  incLoop (fun q => -(q : Int)) (fun q => (q : Int)) st items

/-- The errors `reserveStock` throws (`src/utils/stockManager.js` lines 36-44). -/
inductive ReserveError where
  /-- `Product ${id} is not available` — product missing or soft-deleted. -/
  | notAvailable (productId : Nat)
  /-- `Product "${title}" is not published`. -/
  | notPublished (title : String)
  /-- `Insufficient stock for product "${title}". Available: a, Requested: q`. -/
  | insufficientStock (title : String) (available : Int) (requested : Nat)
deriving Repr, DecidableEq

/-- One iteration of the `reserveStock` loop (`src/utils/stockManager.js`
lines 13-48).  The conditional `findOneAndUpdate` matches the document only
when `inStock >= quantity`, `isDeleted: false`, `isPublished: true`, and then
decrements `inStock` in the same write.  When it matches nothing, the
diagnostic re-read `findById` (which hides deleted documents) decides which
error to throw; on error the store is returned unchanged (nothing matched,
nothing was written). -/
def reserveStockOne (st : Store) (pid q : Nat) : Option ReserveError × Store :=
  match st pid with
  | some p =>
      if (q : Int) ≤ p.inStock && !p.isDeleted && p.isPublished then
        (none, setProduct st pid { p with inStock := p.inStock - (q : Int) })
      else
        match findById st pid with
        | none => (some (.notAvailable pid), st)
        | some p2 =>
            if !p2.isPublished then (some (.notPublished p2.title), st)
            else (some (.insufficientStock p2.title p2.inStock q), st)
  | none => (some (.notAvailable pid), st)

/-- `reserveStock(items)` (`src/utils/stockManager.js` lines 12-49): the loop
over the cart items; the first failing item aborts the loop with its error.
Earlier successful decrements stay in the returned store — in the source they
live in the transaction session and are undone only by the caller's
`abortTransaction`. -/
def reserveStock (st : Store) : List ItemQty → Option ReserveError × Store
  | [] => (none, st)
  | (pid, q) :: rest =>
      match reserveStockOne st pid q with
      | (none, st') => reserveStock st' rest
      | (some e, st') => (some e, st')

/-- `order.payment.status` enum (`src/models/Order.js` lines 78-82). -/
inductive PaymentStatus where
  | pending | processing | succeeded | failed | refunded
deriving Repr, DecidableEq

/-- `order.status` enum (`src/models/Order.js` lines 104-108). -/
inductive OrderStatus where
  | pending | confirmed | processing | shipped | delivered | cancelled | refunded
deriving Repr, DecidableEq

/-- `order.shipping.status` enum (`src/models/Order.js` lines 94-98). -/
inductive ShippingStatus where
  | pending | preparing | shipped | delivered | cancelled
deriving Repr, DecidableEq

/-- `NON_CANCELLABLE_ORDER_STATUSES` (`src/constants/index.js` lines 27-32). -/
def NON_CANCELLABLE_ORDER_STATUSES : List OrderStatus :=
  [.shipped, .delivered, .cancelled, .refunded]

/-- An order line snapshot (`src/models/Order.js` lines 16-27): `product` is
kept by id only. -/
structure OrderItem where
  productId : Nat
  title : String
  sku : String
  price : Nat
  quantity : Nat
  subtotal : Nat
deriving Repr, DecidableEq

/-- The pricing snapshot (`src/models/Order.js` lines 53-70). -/
structure Pricing where
  subtotal : Nat
  shipping : Nat
  tax : Nat
  total : Nat
deriving Repr, DecidableEq

/-- The order fields the embedded operations read or write
(`src/models/Order.js`).  Dates are event times (`Nat`); `none` embeds an
unset field.  `orderNumber`, `user`, `shippingAddress`, `notes` and the
tracking fields are carried by no modelled transition and are omitted. -/
structure Order where
  items : List OrderItem
  pricing : Pricing
  paymentStatus : PaymentStatus
  stripePaymentIntentId : Option Nat
  paidAt : Option Nat
  failedReason : Option String
  shippingMethodExpress : Bool
  shippingStatus : ShippingStatus
  status : OrderStatus
  cancelledAt : Option Nat
  cancelledBy : Option Nat
  cancelReason : Option String
deriving Repr, DecidableEq

/-- `Order.findOne({'payment.stripePaymentIntentId': ref})`: first order (in
collection order) whose payment reference matches. -/
def findOrderByRef : List Order → Nat → Option Order
  | [], _ => none
  | o :: rest, ref =>
      if o.stripePaymentIntentId = some ref then some o else findOrderByRef rest ref

/-- `order.save()` after a `findOne` by payment reference: replace the first
order whose reference matches. -/
def saveOrderByRef : List Order → Nat → Order → List Order
  | [], _, _ => []
  | o :: rest, ref, o' =>
      if o.stripePaymentIntentId = some ref then o' :: rest
      else o :: saveOrderByRef rest ref o'

/-- The items of an order as the `{productId, quantity}` list the handlers
build with `order.items.map(...)`. -/
def Order.itemQtys (o : Order) : List ItemQty :=
  o.items.map fun it => (it.productId, it.quantity)

/-- `handlePaymentSuccess` — current (transactional) version
(`src/src/constants/index.js` lines 640-685).  Finds the order by payment
reference (missing order: logged and dropped, no writes), sets
`payment.status = succeeded`, `payment.paidAt = now`, `status = confirmed`,
`shipping.status = preparing`, saves it, and runs `updateSoldCount` for every
line, all in one transaction.  `inStock` is never touched. -/
def handlePaymentSuccess (st : Store) (orders : List Order) (ref now : Nat) :
    List Order × Store :=
  match findOrderByRef orders ref with
  | none => (orders, st)
  | some o =>
      let o' := { o with
        paymentStatus := .succeeded, paidAt := some now,
        status := .confirmed, shippingStatus := .preparing }
      (saveOrderByRef orders ref o', updateSoldCount st o.itemQtys)

/-- `handlePaymentSuccess` — legacy (non-transactional) version
(`src/src/constants/index.js` lines 1087-1130).  Same order-field updates,
but the stock loop is `$inc: { inStock: -quantity, soldCount: quantity }`
for every line: an unguarded decrement of `inStock`. -/
def handlePaymentSuccessLegacy (st : Store) (orders : List Order) (ref now : Nat) :
    List Order × Store :=
  match findOrderByRef orders ref with
  | none => (orders, st)
  | some o =>
      let o' := { o with
        paymentStatus := .succeeded, paidAt := some now,
        status := .confirmed, shippingStatus := .preparing }
      (saveOrderByRef orders ref o', decStockOnSale st o.itemQtys)

/-- `handlePaymentFailed` — current version (`src/src/constants/index.js`
lines 690-734): sets `payment.status = failed`, `payment.failedReason`,
`status = cancelled`, and releases every line's stock, in one transaction. -/
def handlePaymentFailed (st : Store) (orders : List Order) (ref : Nat)
    (reason : String) : List Order × Store :=
  match findOrderByRef orders ref with
  | none => (orders, st)
  | some o =>
      let o' := { o with
        paymentStatus := .failed, failedReason := some reason,
        status := .cancelled }
      (saveOrderByRef orders ref o', releaseStock st o.itemQtys)

/-- `handlePaymentCanceled` — current version (`src/src/constants/index.js`
lines 739-781): sets `payment.status = failed`, `status = cancelled`,
`cancelledAt = now`, a fixed cancel reason, and releases every line's
stock, in one transaction. -/
def handlePaymentCanceled (st : Store) (orders : List Order) (ref now : Nat) :
    List Order × Store :=
  match findOrderByRef orders ref with
  | none => (orders, st)
  | some o =>
      let o' := { o with
        paymentStatus := .failed, status := .cancelled,
        cancelledAt := some now,
        cancelReason := some "Payment cancelled by user" }
      (saveOrderByRef orders ref o', releaseStock st o.itemQtys)

/-- `handleRefund` (`src/src/constants/index.js` lines 786-826): sets
`payment.status = refunded`, `status = refunded`, then for every line
`$inc: { inStock: quantity, soldCount: -quantity }`. -/
def handleRefund (st : Store) (orders : List Order) (ref : Nat) :
    List Order × Store :=
  match findOrderByRef orders ref with
  | none => (orders, st)
  | some o =>
      let o' := { o with paymentStatus := .refunded, status := .refunded }
      (saveOrderByRef orders ref o', restoreStock st o.itemQtys)

/-- A session-cart line as `validateCartPrices` consumes it: item identity,
requested quantity, client-remembered unit price. -/
structure CartItem where
  productId : Nat
  title : String
  price : Nat
  quantity : Nat
deriving Repr, DecidableEq

/-- The errors `validateCartPrices` throws (current version,
`src/src/constants/index.js` lines 447-453). -/
inductive ValidateError where
  /-- `PRODUCT_NOT_FOUND: title` — missing, soft-deleted or unpublished. -/
  | productNotFound (title : String)
  /-- `OUT_OF_STOCK: title (còn available)`. -/
  | outOfStock (title : String) (available : Int)
deriving Repr, DecidableEq

/-- `validateCartPrices(cart)` (`src/src/constants/index.js` lines 440-472).
For each line: re-read the product (`findById` hides deleted documents);
missing/deleted/unpublished throws `PRODUCT_NOT_FOUND`; visible stock below
the requested quantity throws `OUT_OF_STOCK`; otherwise the line is
re-priced at `salePrice || regularPrice`, a price difference only sets the
`hasChanges` flag, and the loop continues.  Returns the re-priced cart and
the flag. -/
def validateCartPrices (st : Store) : List CartItem → Except ValidateError (List OrderItem × Bool)
  | [] => .ok ([], false)
  | item :: rest =>
      match findById st item.productId with
      | none => .error (.productNotFound item.title)
      | some p =>
          if !p.isPublished then .error (.productNotFound item.title)
          else if p.inStock < (item.quantity : Int) then
            .error (.outOfStock item.title p.inStock)
          else
            let cp := currentPrice p
            let line : OrderItem :=
              { productId := item.productId, title := p.title, sku := p.sku,
                price := cp, quantity := item.quantity,
                subtotal := cp * item.quantity }
            match validateCartPrices st rest with
            | .error e => .error e
            | .ok (lines, hasChanges) =>
                .ok (line :: lines, (item.price ≠ cp : Bool) || hasChanges)

/-- The rejection reasons of `checkout` (current version,
`src/src/constants/index.js` lines 477-588), in the order the code checks
them. -/
inductive CheckoutError where
  /-- `CART_EMPTY`. -/
  | cartEmpty
  /-- `MISSING_REQUIRED_FIELDS` — address fields absent. -/
  | missingAddress
  /-- `INVALID_ADDRESS` — `validateShippingAddress` rejected. -/
  | invalidAddress
  /-- `validateCartPrices` threw. -/
  | businessLogic (e : ValidateError)
  /-- `PRICE_CHANGED`, carrying the re-priced cart (`updatedCart`). -/
  | priceChanged (updatedCart : List OrderItem)
deriving Repr, DecidableEq

/-- `checkout(req, res)` — current version (`src/src/constants/index.js`
lines 477-588).  In source order: empty-cart check, presence of the address
fields, `validateShippingAddress` (an external validator, abstracted to the
boolean `addressValid`), `validateCartPrices`, the `hasChanges` rejection,
then pricing (shipping and tax are external pure calculators, abstracted to
the functions `ship`/`tax` of the subtotal), creation of the order with
`payment.status = pending`, the Stripe payment intent (its id is the input
`ref`), and the second save storing `payment.stripePaymentIntentId`.
Returns (result, order collection, product collection).  The product
collection is returned exactly as received: this `checkout` performs no
stock reservation. -/
def checkout (st : Store) (orders : List Order) (cart : List CartItem)
    (addressPresent addressValid : Bool) (ship tax : Nat → Nat)
    (expressMethod : Bool) (ref : Nat) :
    Except CheckoutError Order × List Order × Store :=
  if cart.isEmpty then (.error .cartEmpty, orders, st)
  else if !addressPresent then (.error .missingAddress, orders, st)
  else if !addressValid then (.error .invalidAddress, orders, st)
  else
    match validateCartPrices st cart with
    | .error e => (.error (.businessLogic e), orders, st)
    | .ok (validatedCart, hasChanges) =>
        if hasChanges then (.error (.priceChanged validatedCart), orders, st)
        else
          let subtotal := (validatedCart.map OrderItem.subtotal).sum
          let shippingCost := ship subtotal
          let taxAmount := tax subtotal
          let total := subtotal + shippingCost + taxAmount
          let order : Order :=
            { items := validatedCart,
              pricing := { subtotal := subtotal, shipping := shippingCost,
                           tax := taxAmount, total := total },
              paymentStatus := .pending,
              stripePaymentIntentId := some ref,
              paidAt := none, failedReason := none,
              shippingMethodExpress := expressMethod,
              shippingStatus := .pending,
              status := .pending,
              cancelledAt := none, cancelledBy := none, cancelReason := none }
          (.ok order, orders ++ [order], st)

/-- The responses of `cancelOrder`. -/
inductive CancelResult where
  /-- `sendNotFound` — no order matched id and user. -/
  | notFound
  /-- `CANNOT_CANCEL_ORDER` — status is non-cancellable. -/
  | cannotCancel
  /-- `sendSuccess`. -/
  | ok
deriving Repr, DecidableEq

/-- `cancelOrder(req, res)` (`src/controllers/orderController.js` lines
85-131).  The order lookup by id and user is abstracted to the
`Option Order` input.  A status in
`['shipped', 'delivered', 'cancelled', 'refunded']` rejects the request with
no writes.  Otherwise the order is cancelled (status, audit fields,
`shipping.status`), and the product counters are restored
(`$inc: { inStock: quantity, soldCount: -quantity }` per line) only when
`order.payment.status === 'succeeded'`. -/
def cancelOrder (st : Store) (found : Option Order) (userId now : Nat)
    (reason : Option String) : CancelResult × Option Order × Store :=
  match found with
  | none => (.notFound, none, st)
  | some o =>
      if o.status ∈ [OrderStatus.shipped, .delivered, .cancelled, .refunded] then
        (.cannotCancel, some o, st)
      else
        let o' := { o with
          status := OrderStatus.cancelled,
          cancelledAt := some now,
          cancelledBy := some userId,
          cancelReason := some (reason.getD "Cancelled by customer"),
          shippingStatus := .cancelled }
        let st' := if o.paymentStatus = .succeeded then restoreStock st o.itemQtys else st
        (.ok, some o', st')

/-- Sum of `d quantity` over the items of a loop that target product `i`:
the accumulated per-product increment of an `incLoop`. -/
def incsum (d : Nat → Int) : List ItemQty → Nat → Int
  | [], _ => 0
  | (pid, q) :: rest, i => (if pid = i then d q else 0) + incsum d rest i

/-- Total quantity the items of a loop carry for product `i`. -/
def qtySum (items : List ItemQty) (i : Nat) : Int :=
  incsum (fun q => (q : Int)) items i

/-- The Stock Ledger operations on single items, used to state frame
properties about interleaved activity on other products. -/
inductive StockOp where
  | reserve (pid q : Nat)
  | release (pid q : Nat)
  | commitSale (pid q : Nat)
deriving Repr, DecidableEq

/-- The product an operation addresses. -/
def StockOp.touches : StockOp → Nat
  | .reserve pid _ => pid
  | .release pid _ => pid
  | .commitSale pid _ => pid

/-- Run one Stock Ledger operation (the error of a failed reserve is
dropped; only the store effect matters for frame reasoning). -/
def applyStockOp (st : Store) : StockOp → Store
  | .reserve pid q => (reserveStockOne st pid q).2
  | .release pid q => releaseStock st [(pid, q)]
  | .commitSale pid q => updateSoldCount st [(pid, q)]

/-- Run a sequence of Stock Ledger operations. -/
def applyStockOps (st : Store) : List StockOp → Store
  | [] => st
  | op :: rest => applyStockOps (applyStockOp st op) rest

/-- Whether an `Except` result is a success. -/
def isOk {ε α : Type} : Except ε α → Bool
  | .ok _ => true
  | .error _ => false

/-- The error of an `Except` result, when it failed. -/
def errOf {ε α : Type} : Except ε α → Option ε
  | .ok _ => none
  | .error e => some e

/-- The re-priced line `validateCartPrices` builds for a cart line: catalog
title/sku, authoritative price, line subtotal.  (The fallback for an
invisible product never arises under the hypotheses it is used with.) -/
def repriceLine (st : Store) (c : CartItem) : OrderItem :=
  match findById st c.productId with
  | some p =>
      { productId := c.productId, title := p.title, sku := p.sku,
        price := currentPrice p, quantity := c.quantity,
        subtotal := currentPrice p * c.quantity }
  | none =>
      { productId := c.productId, title := c.title, sku := "",
        price := c.price, quantity := c.quantity,
        subtotal := c.price * c.quantity }

/-- The corrected (re-priced) cart `validateCartPrices` returns. -/
def repriceCart (st : Store) (cart : List CartItem) : List OrderItem :=
  cart.map (repriceLine st)

/-- A published, in-stock demo product (id 1 in the demo stores). -/
def wProduct : Product :=
  { title := "Widget", sku := "SKU-W", regularPrice := 100, salePrice := none,
    inStock := 5, soldCount := 0, isPublished := true, isDeleted := false }

/-- A one-product demo store. -/
def wStore : Store := fun j => if j = 1 then some wProduct else none

/-- A demo order line: two units of product 1 at unit price 100. -/
def wItem : OrderItem :=
  { productId := 1, title := "Widget", sku := "SKU-W", price := 100,
    quantity := 2, subtotal := 200 }

/-- A demo pending order for `wItem`, payment reference 7. -/
def wOrder : Order :=
  { items := [wItem],
    pricing := { subtotal := 200, shipping := 10, tax := 20, total := 230 },
    paymentStatus := .pending, stripePaymentIntentId := some 7,
    paidAt := none, failedReason := none,
    shippingMethodExpress := false, shippingStatus := .pending,
    status := .pending,
    cancelledAt := none, cancelledBy := none, cancelReason := none }

/-- Demo product 1 with zero available stock. -/
def c1Product : Product := { wProduct with inStock := 0 }

/-- Store for the C1 failing input: product 1 exists with `inStock = 0`. -/
def c1Store : Store := fun j => if j = 1 then some c1Product else none

/-- Demo cart line matching `wProduct` at its current price. -/
def wCartLine : CartItem := { productId := 1, title := "Widget", price := 100, quantity := 2 }

/-- Demo cart line for product 1 with a stale client price (90 ≠ 100). -/
def staleCartLine : CartItem := { productId := 1, title := "Widget", price := 90, quantity := 2 }

/-- Demo product 1 already sold once, as left by a processed payment. -/
def c5Product : Product := { wProduct with inStock := 3, soldCount := 1 }

/-- Store for the C5 counterexample. -/
def c5Store : Store := fun j => if j = 1 then some c5Product else none

/-- An order whose payment already succeeded (stock already committed). -/
def c5Order : Order :=
  { wOrder with
    paymentStatus := .succeeded, paidAt := some 1,
    status := .confirmed, shippingStatus := .preparing,
    items := [{ productId := 1, title := "Widget", sku := "SKU-W",
                price := 100, quantity := 1, subtotal := 100 }] }

/-- First delivery of `payment_succeeded` for `wOrder` (C6). -/
def c6Once : List Order × Store := handlePaymentSuccess wStore [wOrder] 7 10

/-- Redelivery of the same `payment_succeeded` notification (C6). -/
def c6Twice : List Order × Store := handlePaymentSuccess c6Once.2 c6Once.1 7 20

/-- An unpublished demo product with a catalog price of 150 (C7). -/
def c7Product : Product :=
  { title := "Gadget", sku := "SKU-G", regularPrice := 150, salePrice := none,
    inStock := 5, soldCount := 0, isPublished := false, isDeleted := false }

/-- Store for the C7 counterexample: product 2 is unpublished. -/
def c7Store : Store := fun j => if j = 2 then some c7Product else none

/-- Cart for the C7 counterexample: product 2 at a stale client price
(100 ≠ 150). -/
def c7Cart : List CartItem := [{ productId := 2, title := "Gadget", price := 100, quantity := 1 }]

/-- The checkout evaluated for C4: a valid one-line cart (two units of
product 1, correct price) against `wStore`. -/
def c4Run : Except CheckoutError Order × List Order × Store :=
  checkout wStore [] [wCartLine] true true (fun _ => 10) (fun _ => 20) false 7

theorem setProduct_self (st : Store) (pid : Nat) (p : Product) :
    setProduct st pid p pid = some p := by
  simp [setProduct]

theorem setProduct_ne (st : Store) (pid : Nat) (p : Product) (j : Nat)
    (h : j ≠ pid) : setProduct st pid p j = st j := by
  simp [setProduct, h]

theorem incProduct_ne (st : Store) (pid : Nat) (dS dC : Int) (j : Nat)
    (h : j ≠ pid) : incProduct st pid dS dC j = st j := by
  unfold incProduct
  cases findById st pid with
  | none => rfl
  | some p => exact setProduct_ne st pid _ j h

theorem incsum_zero (items : List ItemQty) (i : Nat) :
    incsum (fun _ => 0) items i = 0 := by
  induction items with
  | nil => rfl
  | cons x rest ih =>
      obtain ⟨pid, q⟩ := x
      simp [incsum, ih]

theorem incsum_neg (d : Nat → Int) (items : List ItemQty) (i : Nat) :
    incsum (fun q => -(d q)) items i = -(incsum d items i) := by
  induction items with
  | nil => simp [incsum]
  | cons x rest ih =>
      obtain ⟨pid, q⟩ := x
      by_cases h : pid = i <;> simp [incsum, h, ih] <;> ring

/-- Master lemma for the `$inc` loops: the document at `i` after a loop is
the original document with the accumulated increments — unchanged when it is
missing or soft-deleted. -/
theorem incLoop_at (dS dC : Nat → Int) (items : List ItemQty) (st : Store) (i : Nat) :
    incLoop dS dC st items i =
      match st i with
      | none => none
      | some p =>
          if p.isDeleted then some p
          else some { p with inStock := p.inStock + incsum dS items i,
                             soldCount := p.soldCount + incsum dC items i } := by
  induction items generalizing st with
  | nil =>
      cases h : st i with
      | none => simp [incLoop, h]
      | some p =>
          obtain ⟨pt, psk, prp, psp, pis, psc, ppb, pdl⟩ := p
          cases pdl <;> simp [incLoop, h, incsum]
  | cons x rest ih =>
      obtain ⟨pid, q⟩ := x
      show incLoop dS dC (incProduct st pid (dS q) (dC q)) rest i = _
      rw [ih]
      by_cases hpi : pid = i
      · subst hpi
        cases h : st pid with
        | none =>
            have h1 : incProduct st pid (dS q) (dC q) pid = none := by
              simp [incProduct, findById, h, setProduct]
            simp [h1, h]
        | some p =>
            cases hd : p.isDeleted with
            | true =>
                have h1 : incProduct st pid (dS q) (dC q) pid = some p := by
                  simp [incProduct, findById, h, hd]
                simp [h1, h, hd]
            | false =>
                have h1 : incProduct st pid (dS q) (dC q) pid =
                    some { p with inStock := p.inStock + dS q,
                                  soldCount := p.soldCount + dC q } := by
                  simp [incProduct, findById, h, hd, setProduct]
                simp [h1, h, hd, incsum, add_assoc]
      · have h1 : incProduct st pid (dS q) (dC q) i = st i :=
          incProduct_ne st pid _ _ i (fun h => hpi h.symm)
        rw [h1]
        cases h : st i with
        | none => simp
        | some p => simp [incsum, hpi]

/-- `updateSoldCount` never changes `inStock`. -/
theorem updateSoldCount_stockOf (st : Store) (items : List ItemQty) (i : Nat) :
    stockOf (updateSoldCount st items) i = stockOf st i := by
  unfold stockOf updateSoldCount
  rw [incLoop_at]
  cases h : st i with
  | none => rfl
  | some p => cases hd : p.isDeleted <;> simp [hd, incsum_zero]

/-- The document after `updateSoldCount`, for an existing non-deleted
product: only `soldCount` moves, by the total quantity targeting it. -/
theorem updateSoldCount_at (st : Store) (items : List ItemQty) (i : Nat)
    (p : Product) (h : st i = some p) (hd : p.isDeleted = false) :
    updateSoldCount st items i =
      some { p with soldCount := p.soldCount + qtySum items i } := by
  unfold updateSoldCount
  rw [incLoop_at, h]
  simp [hd, incsum_zero, qtySum]

/-- The document after `releaseStock`, for an existing non-deleted product:
only `inStock` moves, by the total released quantity. -/
theorem releaseStock_at (st : Store) (items : List ItemQty) (i : Nat)
    (p : Product) (h : st i = some p) (hd : p.isDeleted = false) :
    releaseStock st items i =
      some { p with inStock := p.inStock + qtySum items i } := by
  unfold releaseStock
  rw [incLoop_at, h]
  simp [hd, incsum_zero, qtySum]

/-- The document after `restoreStock`, for an existing non-deleted product:
`inStock` up and `soldCount` down by the total quantity. -/
theorem restoreStock_at (st : Store) (items : List ItemQty) (i : Nat)
    (p : Product) (h : st i = some p) (hd : p.isDeleted = false) :
    restoreStock st items i =
      some { p with inStock := p.inStock + qtySum items i,
                    soldCount := p.soldCount - qtySum items i } := by
  unfold restoreStock
  rw [incLoop_at, h]
  have hn : incsum (fun q => -((q : Nat) : Int)) items i = -(qtySum items i) :=
    incsum_neg (fun q => ((q : Nat) : Int)) items i
  simp [hd, qtySum] at hn ⊢
  rw [hn, sub_eq_add_neg]

/-- Case-by-case equation for one conditional reservation on an existing
document. -/
theorem reserveStockOne_eq (st : Store) (pid q : Nat) (p : Product)
    (hp : st pid = some p) :
    reserveStockOne st pid q =
      if (q : Int) ≤ p.inStock ∧ p.isDeleted = false ∧ p.isPublished = true then
        (none, setProduct st pid { p with inStock := p.inStock - (q : Int) })
      else if p.isDeleted = true then (some (.notAvailable pid), st)
      else if p.isPublished = false then (some (.notPublished p.title), st)
      else (some (.insufficientStock p.title p.inStock q), st) := by
  by_cases hd : p.isDeleted <;> by_cases hpub : p.isPublished <;>
    by_cases hq : (q : Int) ≤ p.inStock <;>
    simp [reserveStockOne, hp, findById, hd, hpub, hq]

/-- Reservation of a missing document fails with the not-available error. -/
theorem reserveStockOne_missing (st : Store) (pid q : Nat) (hp : st pid = none) :
    reserveStockOne st pid q = (some (.notAvailable pid), st) := by
  simp [reserveStockOne, hp]

/-- A successful conditional reservation: the product existed, satisfied the
match conditions, and the write decremented its stock by exactly `q`. -/
theorem reserveStockOne_success (st : Store) (pid q : Nat)
    (h : (reserveStockOne st pid q).1 = none) :
    ∃ p, st pid = some p ∧ (q : Int) ≤ p.inStock ∧ p.isDeleted = false ∧
      p.isPublished = true ∧
      (reserveStockOne st pid q).2 =
        setProduct st pid { p with inStock := p.inStock - (q : Int) } := by
  cases hp : st pid with
  | none => rw [reserveStockOne_missing st pid q hp] at h; exact absurd h (by simp)
  | some p =>
      rw [reserveStockOne_eq st pid q p hp] at h ⊢
      by_cases hd : p.isDeleted
      · simp [hd] at h
      · by_cases hpub : p.isPublished
        · by_cases hq : (q : Int) ≤ p.inStock
          · refine ⟨p, rfl, hq, by simp [hd], hpub, ?_⟩
            simp [hd, hpub, hq]
          · simp [hd, hpub, hq] at h
        · simp [hd, hpub] at h

/-- A failed conditional reservation leaves the store untouched. -/
theorem reserveStockOne_failure (st : Store) (pid q : Nat) (e : ReserveError)
    (h : (reserveStockOne st pid q).1 = some e) :
    (reserveStockOne st pid q).2 = st := by
  cases hp : st pid with
  | none => rw [reserveStockOne_missing st pid q hp]
  | some p =>
      rw [reserveStockOne_eq st pid q p hp] at h ⊢
      by_cases hc : (q : Int) ≤ p.inStock ∧ p.isDeleted = false ∧ p.isPublished = true
      · rw [if_pos hc] at h; simp at h
      · rw [if_neg hc] at h ⊢
        by_cases hd : p.isDeleted = true
        · rw [if_pos hd]
        · rw [if_neg hd]
          by_cases hpub : p.isPublished = false
          · rw [if_pos hpub]
          · rw [if_neg hpub]

/-- A Stock Ledger operation leaves every other product's document alone. -/
theorem applyStockOp_frame (st : Store) (op : StockOp) (i : Nat)
    (h : op.touches ≠ i) : applyStockOp st op i = st i := by
  cases op with
  | reserve pid q =>
      have hpi : i ≠ pid := fun he => h (by simp [StockOp.touches, he])
      simp only [applyStockOp]
      cases hp : st pid with
      | none => rw [reserveStockOne_missing st pid q hp]
      | some p =>
          rw [reserveStockOne_eq st pid q p hp]
          by_cases hd : p.isDeleted <;> by_cases hpub : p.isPublished <;>
            by_cases hq : (q : Int) ≤ p.inStock <;>
            simp [hd, hpub, hq, setProduct, hpi]
  | release pid q =>
      have hpi : i ≠ pid := fun he => h (by simp [StockOp.touches, he])
      simp only [applyStockOp, releaseStock, incLoop]
      exact incProduct_ne st pid _ _ i hpi
  | commitSale pid q =>
      have hpi : i ≠ pid := fun he => h (by simp [StockOp.touches, he])
      simp only [applyStockOp, updateSoldCount, incLoop]
      exact incProduct_ne st pid _ _ i hpi

/-- A sequence of Stock Ledger operations that all address other products
leaves product `i`'s document alone. -/
theorem applyStockOps_frame (ops : List StockOp) (st : Store) (i : Nat)
    (h : ∀ op ∈ ops, op.touches ≠ i) : applyStockOps st ops i = st i := by
  induction ops generalizing st with
  | nil => rfl
  | cons op rest ih =>
      show applyStockOps (applyStockOp st op) rest i = st i
      rw [ih (applyStockOp st op) (fun o ho => h o (List.mem_cons_of_mem op ho))]
      exact applyStockOp_frame st op i (h op (List.mem_cons_self op rest))

/-- `order.save()` after `findOne` by reference: the saved order (which keeps
its reference) is what a second `findOne` by the same reference returns. -/
theorem findOrderByRef_save (orders : List Order) (ref : Nat) (o o' : Order)
    (hfound : findOrderByRef orders ref = some o)
    (href : o'.stripePaymentIntentId = some ref) :
    findOrderByRef (saveOrderByRef orders ref o') ref = some o' := by
  induction orders with
  | nil => simp [findOrderByRef] at hfound
  | cons a rest ih =>
      by_cases ha : a.stripePaymentIntentId = some ref
      · simp [saveOrderByRef, findOrderByRef, ha, href]
      · simp only [saveOrderByRef, if_neg ha, findOrderByRef]
        apply ih
        simp only [findOrderByRef, if_neg ha] at hfound
        exact hfound

/-- The order `findOne` returns for a reference indeed carries that
reference. -/
theorem findOrderByRef_ref (orders : List Order) (ref : Nat) (o : Order)
    (h : findOrderByRef orders ref = some o) :
    o.stripePaymentIntentId = some ref := by
  induction orders with
  | nil => simp [findOrderByRef] at h
  | cons a rest ih =>
      by_cases ha : a.stripePaymentIntentId = some ref
      · simp only [findOrderByRef, if_pos ha, Option.some.injEq] at h
        rw [← h]; exact ha
      · simp only [findOrderByRef, if_neg ha] at h
        exact ih h

/-- Equation for `handlePaymentSuccess` when the order is found. -/
theorem handlePaymentSuccess_eq (st : Store) (orders : List Order)
    (ref now : Nat) (o : Order) (hfound : findOrderByRef orders ref = some o) :
    handlePaymentSuccess st orders ref now =
      (saveOrderByRef orders ref
        { o with paymentStatus := .succeeded, paidAt := some now,
                 status := .confirmed, shippingStatus := .preparing },
       updateSoldCount st o.itemQtys) := by
  simp [handlePaymentSuccess, hfound]

/-- Equation for `handleRefund` when the order is found. -/
theorem handleRefund_eq (st : Store) (orders : List Order) (ref : Nat)
    (o : Order) (hfound : findOrderByRef orders ref = some o) :
    handleRefund st orders ref =
      (saveOrderByRef orders ref
        { o with paymentStatus := .refunded, status := .refunded },
       restoreStock st o.itemQtys) := by
  simp [handleRefund, hfound]

/-- Pointwise effect of a restock loop, with no existence hypothesis. -/
theorem restoreStock_at_all (st : Store) (items : List ItemQty) (i : Nat) :
    restoreStock st items i =
      match st i with
      | none => none
      | some p =>
          if p.isDeleted then some p
          else some { p with inStock := p.inStock + qtySum items i,
                             soldCount := p.soldCount - qtySum items i } := by
  unfold restoreStock
  rw [incLoop_at]
  cases h : st i with
  | none => rfl
  | some p =>
      cases hd : p.isDeleted with
      | true => simp [hd]
      | false =>
          have hn : incsum (fun q => -((q : Nat) : Int)) items i = -(qtySum items i) :=
            incsum_neg (fun q => ((q : Nat) : Int)) items i
          simp only [hd, if_false, Bool.false_eq_true, hn, qtySum]
          rw [sub_eq_add_neg]

/-- Under the per-line visibility/stock hypotheses, `validateCartPrices`
succeeds, returns the re-priced cart, and raises the `hasChanges` flag
exactly when some line's client price differs from the authoritative
price. -/
theorem validateCartPrices_ok (st : Store) (cart : List CartItem)
    (h : ∀ c ∈ cart, ∃ p, findById st c.productId = some p ∧
        p.isPublished = true ∧ (c.quantity : Int) ≤ p.inStock) :
    ∃ flag, validateCartPrices st cart = .ok (repriceCart st cart, flag) ∧
      (flag = true ↔ ∃ c ∈ cart, ∃ p, findById st c.productId = some p ∧
        c.price ≠ currentPrice p) := by
  induction cart with
  | nil => exact ⟨false, rfl, by simp⟩
  | cons c rest ih =>
      obtain ⟨p, hp, hpub, hstock⟩ := h c (List.mem_cons_self c rest)
      obtain ⟨flag, hrest, hiff⟩ := ih (fun c' hc' => h c' (List.mem_cons_of_mem c hc'))
      have hnl : ¬(p.inStock < (c.quantity : Int)) := not_lt.mpr hstock
      refine ⟨decide (c.price ≠ currentPrice p) || flag, ?_, ?_⟩
      · simp only [validateCartPrices, hp, hpub, Bool.not_true, Bool.false_eq_true,
          if_false, if_neg hnl, hrest, repriceCart, List.map_cons, repriceLine]
      · simp only [Bool.or_eq_true, decide_eq_true_eq, hiff]
        constructor
        · rintro (hne | ⟨c', hc', p', hp', hne⟩)
          · exact ⟨c, List.mem_cons_self c rest, p, hp, hne⟩
          · exact ⟨c', List.mem_cons_of_mem c hc', p', hp', hne⟩
        · rintro ⟨c', hc', p', hp', hne⟩
          rcases List.mem_cons.mp hc' with rfl | hmem
          · left
            rw [hp] at hp'
            rw [Option.some.injEq] at hp'
            rw [hp']
            exact hne
          · exact Or.inr ⟨c', hmem, p', hp', hne⟩

/-- **C1** (refuting evaluation, code bug): the legacy `payment_succeeded`
handler (`src/src/constants/index.js` lines 1087-1130) decrements `inStock`
with an unguarded `$inc`, so a product whose available quantity starts at 0
is driven to -2 by one webhook delivery for a pending two-unit order — the
non-negative stock invariant fails, and this decrement carries no
sufficiency check. -/
theorem c1_legacy_success_drives_stock_negative :
    stockOf c1Store 1 = some 0 ∧
    (findOrderByRef [wOrder] 7).map Order.paymentStatus = some PaymentStatus.pending ∧
    stockOf (handlePaymentSuccessLegacy c1Store [wOrder] 7 99).2 1 = some (-2) := by
  refine ⟨rfl, rfl, ?_⟩
  decide

/-- **C2**: the Stock Ledger reserve contract.  For an existing product,
`reserveStock`'s conditional write decrements `inStock` by exactly `q` iff
`inStock ≥ q` and the product is published and not deleted, in the single
conditional write; a deleted product fails with the not-available error, an
unpublished one with the not-published error, and insufficient stock fails
with an error reporting the actual available amount — in every failure case
the store is returned unchanged. -/
theorem c2_reserveStock_contract (st : Store) (pid q : Nat) (p : Product)
    (hp : st pid = some p) :
    reserveStockOne st pid q =
      if (q : Int) ≤ p.inStock ∧ p.isDeleted = false ∧ p.isPublished = true then
        (none, setProduct st pid { p with inStock := p.inStock - (q : Int) })
      else if p.isDeleted = true then (some (.notAvailable pid), st)
      else if p.isPublished = false then (some (.notPublished p.title), st)
      else (some (.insufficientStock p.title p.inStock q), st) :=
  reserveStockOne_eq st pid q p hp

/-- Witness for C2 at a concrete store: three units reserved out of five. -/
theorem c2_reserveStock_contract_witness :
    wStore 1 = some wProduct ∧
    reserveStockOne wStore 1 3 =
      (if (3 : Int) ≤ wProduct.inStock ∧ wProduct.isDeleted = false ∧ wProduct.isPublished = true then
        (none, setProduct wStore 1 { wProduct with inStock := wProduct.inStock - (3 : Int) })
      else if wProduct.isDeleted = true then (some (.notAvailable 1), wStore)
      else if wProduct.isPublished = false then (some (.notPublished wProduct.title), wStore)
      else (some (.insufficientStock wProduct.title wProduct.inStock 3), wStore)) :=
  ⟨rfl, c2_reserveStock_contract wStore 1 3 wProduct rfl⟩

/-- **C3**: effect of `payment_succeeded` (current, transactional handler)
on an order found by its payment reference with pending payment: the order
is saved with `payment.status = succeeded`, `status = confirmed`,
`shipping.status = preparing`, every product's `inStock` is left unchanged,
and an existing non-deleted product's `soldCount` grows by the total
quantity its order lines carry. -/
theorem c3_paymentSuccess_commit_effect (st : Store) (orders : List Order)
    (ref now i : Nat) (o : Order) (p : Product)
    (hfound : findOrderByRef orders ref = some o)
    (hpend : o.paymentStatus = .pending)
    (hp : st i = some p) (hd : p.isDeleted = false) :
    (handlePaymentSuccess st orders ref now).1 =
      saveOrderByRef orders ref
        { o with paymentStatus := .succeeded, paidAt := some now,
                 status := .confirmed, shippingStatus := .preparing }
    ∧ stockOf (handlePaymentSuccess st orders ref now).2 i = stockOf st i
    ∧ soldOf (handlePaymentSuccess st orders ref now).2 i =
        some (p.soldCount + qtySum o.itemQtys i) := by
  rw [handlePaymentSuccess_eq st orders ref now o hfound]
  refine ⟨rfl, ?_, ?_⟩
  · exact updateSoldCount_stockOf st o.itemQtys i
  · show Option.map Product.soldCount (updateSoldCount st o.itemQtys i) =
      some (p.soldCount + qtySum o.itemQtys i)
    rw [updateSoldCount_at st o.itemQtys i p hp hd]
    rfl

/-- Witness for C3: the demo pending order against the demo store. -/
theorem c3_paymentSuccess_commit_effect_witness :
    findOrderByRef [wOrder] 7 = some wOrder ∧
    wOrder.paymentStatus = .pending ∧
    wStore 1 = some wProduct ∧ wProduct.isDeleted = false ∧
    ((handlePaymentSuccess wStore [wOrder] 7 5).1 =
      saveOrderByRef [wOrder] 7
        { wOrder with paymentStatus := .succeeded, paidAt := some 5,
                      status := .confirmed, shippingStatus := .preparing }
    ∧ stockOf (handlePaymentSuccess wStore [wOrder] 7 5).2 1 = stockOf wStore 1
    ∧ soldOf (handlePaymentSuccess wStore [wOrder] 7 5).2 1 =
        some (wProduct.soldCount + qtySum wOrder.itemQtys 1)) :=
  ⟨rfl, rfl, rfl, rfl,
    c3_paymentSuccess_commit_effect wStore [wOrder] 7 5 1 wOrder wProduct rfl rfl rfl rfl⟩

/-- **C4** (refuting evaluation, code bug): the `checkout` in the source
never calls the Stock Ledger.  A valid one-line checkout of two units
against five in stock succeeds and creates the order, yet the product's
`inStock` is still 5 afterwards (reservation would leave 3): no stock is
reserved by checkout at all, contradicting the checkout contract and the
repository's own stock-transaction implementation guide. -/
theorem c4_checkout_reserves_no_stock :
    stockOf wStore 1 = some 5 ∧
    isOk c4Run.1 = true ∧
    c4Run.2.1.length = 1 ∧
    stockOf c4Run.2.2 1 = some 5 := by
  refine ⟨rfl, ?_, ?_, ?_⟩ <;> decide

/-- **C5** (counterexample): the webhook handlers check no paymentState
precondition.  For an order whose payment already `succeeded`, a
`payment_succeeded` event is applied again and moves the stock counters:
product 1's `soldCount` goes from 1 to 2 — the claim that such an event
leaves the order and the stock counters unchanged is false. -/
theorem c5_counterexample_no_precondition_check :
    (findOrderByRef [c5Order] 7).map Order.paymentStatus = some PaymentStatus.succeeded ∧
    soldOf c5Store 1 = some 1 ∧
    soldOf (handlePaymentSuccess c5Store [c5Order] 7 99).2 1 = some 2 := by
  refine ⟨rfl, rfl, ?_⟩
  decide

/-- **C5 amended**: whenever an order is found by the payment reference, the
`payment_succeeded` and `charge_refunded` handlers apply their full field
updates and stock effects unconditionally — no guard on the order's current
paymentState exists, so an event arriving in any state re-applies its
transition. -/
theorem c5_amended_handlers_unguarded (st : Store) (orders : List Order)
    (ref now : Nat) (o : Order)
    (hfound : findOrderByRef orders ref = some o) :
    handlePaymentSuccess st orders ref now =
      (saveOrderByRef orders ref
        { o with paymentStatus := .succeeded, paidAt := some now,
                 status := .confirmed, shippingStatus := .preparing },
       updateSoldCount st o.itemQtys)
    ∧ handleRefund st orders ref =
      (saveOrderByRef orders ref
        { o with paymentStatus := .refunded, status := .refunded },
       restoreStock st o.itemQtys) :=
  ⟨handlePaymentSuccess_eq st orders ref now o hfound,
   handleRefund_eq st orders ref o hfound⟩

/-- Witness for the amended C5: the handlers fire on an order whose payment
already succeeded. -/
theorem c5_amended_handlers_unguarded_witness :
    findOrderByRef [c5Order] 7 = some c5Order ∧
    (handlePaymentSuccess c5Store [c5Order] 7 99 =
      (saveOrderByRef [c5Order] 7
        { c5Order with paymentStatus := .succeeded, paidAt := some 99,
                       status := .confirmed, shippingStatus := .preparing },
       updateSoldCount c5Store c5Order.itemQtys)
    ∧ handleRefund c5Store [c5Order] 7 =
      (saveOrderByRef [c5Order] 7
        { c5Order with paymentStatus := .refunded, status := .refunded },
       restoreStock c5Store c5Order.itemQtys)) :=
  ⟨rfl, c5_amended_handlers_unguarded c5Store [c5Order] 7 99 c5Order rfl⟩

/-- **C6** (counterexample): the same `payment_succeeded` notification
delivered twice does not yield the state of a single delivery: the first
delivery raises product 1's `soldCount` to 2, the redelivery raises it to 4
— the commit is not idempotent. -/
theorem c6_counterexample_double_commit :
    soldOf c6Once.2 1 = some 2 ∧ soldOf c6Twice.2 1 = some 4 := by
  constructor <;> decide

/-- **C6 amended**: redelivering the same `payment_succeeded` notification
re-applies the commit: after two deliveries an existing non-deleted
product's `soldCount` has grown by twice the total line quantity (while
`inStock` stays untouched by both deliveries). -/
theorem c6_amended_redelivery_recommits (st : Store) (orders : List Order)
    (ref t1 t2 i : Nat) (o : Order) (p : Product)
    (hfound : findOrderByRef orders ref = some o)
    (hp : st i = some p) (hd : p.isDeleted = false) :
    stockOf (handlePaymentSuccess (handlePaymentSuccess st orders ref t1).2
        (handlePaymentSuccess st orders ref t1).1 ref t2).2 i = stockOf st i
    ∧ soldOf (handlePaymentSuccess (handlePaymentSuccess st orders ref t1).2
        (handlePaymentSuccess st orders ref t1).1 ref t2).2 i =
        some (p.soldCount + qtySum o.itemQtys i + qtySum o.itemQtys i) := by
  have href : o.stripePaymentIntentId = some ref := findOrderByRef_ref orders ref o hfound
  have h2 : findOrderByRef (saveOrderByRef orders ref
      { o with paymentStatus := .succeeded, paidAt := some t1,
               status := .confirmed, shippingStatus := .preparing }) ref =
      some ({ o with
                paymentStatus := .succeeded, paidAt := some t1,
                status := .confirmed, shippingStatus := .preparing }) :=
    findOrderByRef_save orders ref o _ hfound href
  rw [handlePaymentSuccess_eq st orders ref t1 o hfound]
  have h3 := handlePaymentSuccess_eq (updateSoldCount st o.itemQtys)
    (saveOrderByRef orders ref
      { o with paymentStatus := .succeeded, paidAt := some t1,
               status := .confirmed, shippingStatus := .preparing }) ref t2 _ h2
  refine ⟨?_, ?_⟩
  · show stockOf (handlePaymentSuccess (updateSoldCount st o.itemQtys)
      (saveOrderByRef orders ref _) ref t2).2 i = stockOf st i
    rw [h3]
    show stockOf (updateSoldCount (updateSoldCount st o.itemQtys) _) i = stockOf st i
    rw [updateSoldCount_stockOf, updateSoldCount_stockOf]
  · show soldOf (handlePaymentSuccess (updateSoldCount st o.itemQtys)
      (saveOrderByRef orders ref _) ref t2).2 i =
        some (p.soldCount + qtySum o.itemQtys i + qtySum o.itemQtys i)
    rw [h3]
    have hst1 : updateSoldCount st o.itemQtys i =
        some { p with soldCount := p.soldCount + qtySum o.itemQtys i } :=
      updateSoldCount_at st o.itemQtys i p hp hd
    have h4 : updateSoldCount (updateSoldCount st o.itemQtys) o.itemQtys i =
        some { p with soldCount := p.soldCount + qtySum o.itemQtys i + qtySum o.itemQtys i } :=
      updateSoldCount_at (updateSoldCount st o.itemQtys) o.itemQtys i
        { p with soldCount := p.soldCount + qtySum o.itemQtys i } hst1 hd
    show Option.map Product.soldCount
        (updateSoldCount (updateSoldCount st o.itemQtys) o.itemQtys i) = _
    rw [h4]
    rfl

/-- Witness for the amended C6: the demo pending order processed twice. -/
theorem c6_amended_redelivery_recommits_witness :
    findOrderByRef [wOrder] 7 = some wOrder ∧
    wStore 1 = some wProduct ∧ wProduct.isDeleted = false ∧
    (stockOf (handlePaymentSuccess (handlePaymentSuccess wStore [wOrder] 7 10).2
        (handlePaymentSuccess wStore [wOrder] 7 10).1 7 20).2 1 = stockOf wStore 1
    ∧ soldOf (handlePaymentSuccess (handlePaymentSuccess wStore [wOrder] 7 10).2
        (handlePaymentSuccess wStore [wOrder] 7 10).1 7 20).2 1 =
        some (wProduct.soldCount + qtySum wOrder.itemQtys 1 + qtySum wOrder.itemQtys 1)) :=
  ⟨rfl, rfl, rfl,
    c6_amended_redelivery_recommits wStore [wOrder] 7 10 20 1 wOrder wProduct rfl rfl rfl⟩

/-- **C7** (counterexample): a cart line whose client price (100) differs
from the authoritative catalog price (150) does not always yield the
price-changed rejection: when the product is unpublished, `checkout` fails
with the product-not-found business error instead, and no corrected cart is
returned. -/
theorem c7_counterexample_stale_price_masked :
    (100 : Nat) ≠ currentPrice c7Product ∧
    errOf (checkout c7Store [] c7Cart true true (fun _ => 10) (fun _ => 20) false 9).1 =
      some (.businessLogic (.productNotFound "Gadget")) ∧
    (checkout c7Store [] c7Cart true true (fun _ => 10) (fun _ => 20) false 9).2.1 = [] := by
  refine ⟨?_, ?_, ?_⟩ <;> decide

/-- **C7 amended**: for a cart whose lines all reference visible published
products with sufficient visible stock, if at least one line's client price
differs from the authoritative price (`salePrice` when set and non-zero,
else `regularPrice`), then checkout (with a well-formed, valid address)
fails with the price-changed rejection carrying the re-priced cart, the
order collection is unchanged (no order is created), and the product store
is untouched. -/
theorem c7_amended_stale_price_rejected (st : Store) (orders : List Order)
    (cart : List CartItem) (ship tax : Nat → Nat) (express : Bool) (ref : Nat)
    (hlines : ∀ c ∈ cart, ∃ p, findById st c.productId = some p ∧
        p.isPublished = true ∧ (c.quantity : Int) ≤ p.inStock)
    (hstale : ∃ c ∈ cart, ∃ p, findById st c.productId = some p ∧
        c.price ≠ currentPrice p) :
    checkout st orders cart true true ship tax express ref =
      (.error (.priceChanged (repriceCart st cart)), orders, st) := by
  obtain ⟨flag, hok, hiff⟩ := validateCartPrices_ok st cart hlines
  have hflag : flag = true := hiff.mpr hstale
  subst hflag
  have hisE : cart.isEmpty = false := by
    cases cart with
    | nil => rcases hstale with ⟨c, hc, _⟩; simp at hc
    | cons a rest => rfl
  simp [checkout, hisE, hok]

/-- Witness for the amended C7: a stale-priced line (90 against 100) over
the demo store. -/
theorem c7_amended_stale_price_rejected_witness :
    checkout wStore [] [staleCartLine] true true (fun _ => 10) (fun _ => 20) false 7 =
      (.error (.priceChanged (repriceCart wStore [staleCartLine])), [], wStore) :=
  c7_amended_stale_price_rejected wStore [] [staleCartLine]
    (fun _ => 10) (fun _ => 20) false 7
    (by
      intro c hc
      rw [List.mem_singleton] at hc
      subst hc
      exact ⟨wProduct, rfl, rfl, by decide⟩)
    ⟨staleCartLine, List.mem_singleton_self staleCartLine,
      wProduct, rfl, by decide⟩

/-- **C8**: reservation/release round trip.  If the conditional reserve of
`q` units of item `i` succeeds, then after any sequence of Stock Ledger
operations that all address other items, releasing `q` units of item `i`
restores its `inStock` to exactly the pre-reservation value. -/
theorem c8_reserve_release_roundtrip (st : Store) (i q : Nat)
    (ops : List StockOp)
    (hres : (reserveStockOne st i q).1 = none)
    (hops : ∀ op ∈ ops, op.touches ≠ i) :
    stockOf (releaseStock (applyStockOps (reserveStockOne st i q).2 ops) [(i, q)]) i
      = stockOf st i := by
  obtain ⟨p, hp, hq, hd, hpub, hst⟩ := reserveStockOne_success st i q hres
  have h1 : applyStockOps (reserveStockOne st i q).2 ops i =
      (reserveStockOne st i q).2 i := applyStockOps_frame ops _ i hops
  have h2 : (reserveStockOne st i q).2 i =
      some { p with inStock := p.inStock - (q : Int) } := by
    rw [hst]; exact setProduct_self st i _
  have h3 := releaseStock_at (applyStockOps (reserveStockOne st i q).2 ops)
    [(i, q)] i { p with inStock := p.inStock - (q : Int) } (h1.trans h2) hd
  unfold stockOf
  rw [h3, hp]
  show some (p.inStock - (q : Int) + qtySum [(i, q)] i) = some p.inStock
  have hq1 : qtySum [(i, q)] i = (q : Int) := by simp [qtySum, incsum]
  rw [hq1, sub_add_cancel]

/-- Witness for C8: reserve three of five units of product 1, run two
operations on other products, release the three units. -/
theorem c8_reserve_release_roundtrip_witness :
    (reserveStockOne wStore 1 3).1 = none ∧
    stockOf (releaseStock (applyStockOps (reserveStockOne wStore 1 3).2
      [StockOp.release 2 4, StockOp.commitSale 5 1]) [(1, 3)]) 1 = stockOf wStore 1 :=
  ⟨by decide,
    c8_reserve_release_roundtrip wStore 1 3 [StockOp.release 2 4, StockOp.commitSale 5 1]
      (by decide) (by decide)⟩

/-- **C9**: user cancellation restocks only after successful payment.  For a
found order in a cancellable status, `cancelOrder` succeeds, rewrites the
order's status/audit/shipping fields, and the product collection changes at
each id exactly by the restock loop when `payment.status = succeeded` —
`inStock` up and `soldCount` down by the total line quantity for visible
products — and is completely untouched otherwise. -/
theorem c9_cancelOrder_restock_iff_succeeded (st : Store) (o : Order)
    (userId now i : Nat) (reason : Option String)
    (hc : o.status ∉ NON_CANCELLABLE_ORDER_STATUSES) :
    (cancelOrder st (some o) userId now reason).1 = .ok
    ∧ (cancelOrder st (some o) userId now reason).2.1 =
        some { o with status := .cancelled, cancelledAt := some now,
                      cancelledBy := some userId,
                      cancelReason := some (reason.getD "Cancelled by customer"),
                      shippingStatus := .cancelled }
    ∧ (cancelOrder st (some o) userId now reason).2.2 i =
        (if o.paymentStatus = .succeeded then
          (match st i with
           | none => none
           | some p =>
               if p.isDeleted then some p
               else some { p with inStock := p.inStock + qtySum o.itemQtys i,
                                  soldCount := p.soldCount - qtySum o.itemQtys i })
         else st i) := by
  have hcc : ¬(o.status ∈ [OrderStatus.shipped, .delivered, .cancelled, .refunded]) := hc
  simp only [cancelOrder, if_neg hcc]
  refine ⟨trivial, trivial, ?_⟩
  by_cases hs : o.paymentStatus = .succeeded
  · rw [if_pos hs, if_pos hs]
    exact restoreStock_at_all st o.itemQtys i
  · rw [if_neg hs, if_neg hs]

/-- Witness for C9: cancelling the demo pending-payment order changes no
product counter. -/
theorem c9_cancelOrder_restock_iff_succeeded_witness :
    wOrder.status ∉ NON_CANCELLABLE_ORDER_STATUSES ∧
    ((cancelOrder wStore (some wOrder) 4 77 none).1 = .ok
    ∧ (cancelOrder wStore (some wOrder) 4 77 none).2.1 =
        some { wOrder with status := .cancelled, cancelledAt := some 77,
                           cancelledBy := some 4,
                           cancelReason := some ((none : Option String).getD "Cancelled by customer"),
                           shippingStatus := .cancelled }
    ∧ (cancelOrder wStore (some wOrder) 4 77 none).2.2 1 =
        (if wOrder.paymentStatus = .succeeded then
          (match wStore 1 with
           | none => none
           | some p =>
               if p.isDeleted then some p
               else some { p with inStock := p.inStock + qtySum wOrder.itemQtys 1,
                                  soldCount := p.soldCount - qtySum wOrder.itemQtys 1 })
         else wStore 1)) :=
  ⟨by decide, c9_cancelOrder_restock_iff_succeeded wStore wOrder 4 77 1 none (by decide)⟩

/-- **C10**: terminal statuses are sticky under user cancellation.  For an
order whose status is shipped, delivered, cancelled or refunded (the
`NON_CANCELLABLE_ORDER_STATUSES`), `cancelOrder` rejects the request and
returns the order and the whole product collection unchanged. -/
theorem c10_terminal_status_sticky (st : Store) (o : Order)
    (userId now : Nat) (reason : Option String)
    (h : o.status ∈ NON_CANCELLABLE_ORDER_STATUSES) :
    cancelOrder st (some o) userId now reason = (.cannotCancel, some o, st) := by
  have h' : o.status ∈ [OrderStatus.shipped, .delivered, .cancelled, .refunded] := h
  simp [cancelOrder, h']

/-- Witness for C10: a shipped order cannot be cancelled. -/
theorem c10_terminal_status_sticky_witness :
    ({ wOrder with status := OrderStatus.shipped } : Order).status ∈
      NON_CANCELLABLE_ORDER_STATUSES ∧
    cancelOrder wStore (some { wOrder with status := OrderStatus.shipped }) 4 77 none =
      (.cannotCancel, some { wOrder with status := OrderStatus.shipped }, wStore) :=
  ⟨by decide,
    c10_terminal_status_sticky wStore { wOrder with status := OrderStatus.shipped }
      4 77 none (by decide)⟩
